import Mathlib

/-! Clash configuration script `My_scripts.js`.

A shallow embedding of the single function `main(config)` of `src/My_scripts.js`
and the verification of its specified properties.

The script receives a configuration mapping, assigns ten top-level keys to
literal values and returns the same mapping.  JavaScript values are embedded as
the JSON-like type `Value`; a mapping is an association list in insertion
order, read with `getProp` and written with `setProp`.
-/

namespace ClashRule

/-! ## Data model -/

/-- JavaScript values as they occur in the script: `null`, booleans, integer
numbers, strings, arrays and plain objects (fields in insertion order). -/
inductive Value where
  | null
  | bool (b : Bool)
  | num (n : Int)
  | str (s : String)
  | arr (items : List Value)
  | obj (fields : List (String × Value))

/-- A plain JavaScript object: its own properties in insertion order. -/
abbrev Obj := List (String × Value)

/-- Property read `o[k]`: the value bound to `k`, `none` when `k` is absent. -/
def getProp : Obj → String → Option Value
  | [], _ => none
  | (k', v) :: rest, k => if k' = k then some v else getProp rest k

/-- Property assignment `o[k] = v`: an existing key keeps its position and gets
the new value, a new key is appended. -/
def setProp : Obj → String → Value → Obj
  | [], k, v => [(k, v)]
  | (k', v') :: rest, k, v =>
    if k' = k then (k, v) :: rest else (k', v') :: setProp rest k v

/-- The own keys of an object, as `Object.keys(o)`. -/
def ownKeys (o : Obj) : List String := o.map Prod.fst

/-- The library function `Object.fromEntries`: assigns the pairs in order to a fresh object. -/
def objectFromEntries (entries : List (String × Value)) : Obj :=
  entries.foldl (fun o e => setProp o e.1 e.2) []

/-- Test for `null`. -/
def Value.isNull : Value → Bool
  | .null => true
  | _ => false

/-- The string held by a value, if it is a string. -/
def Value.asStr? : Value → Option String
  | .str s => some s
  | _ => none

/-- The items held by a value, if it is an array. -/
def Value.asArr? : Value → Option (List Value)
  | .arr xs => some xs
  | _ => none

/-- The fields held by a value, if it is an object. -/
def Value.asObj? : Value → Option Obj
  | .obj fs => some fs
  | _ => none

/-- Field read `v[k]` on a value: `none` unless `v` is an object that has `k`. -/
def Value.field? (v : Value) (k : String) : Option Value :=
  match v with
  | .obj fs => getProp fs k
  | _ => none

/-- The strings of a list of values, `none` if some item is not a string. -/
def allStr? : List Value → Option (List String)
  | [] => some []
  | v :: vs =>
    match v.asStr?, allStr? vs with
    | some s, some ss => some (s :: ss)
    | _, _ => none

/-! ## The script -/

/-- The constant `cnDnsList` (source lines 12-15). -/
def cnDnsList : Value :=
  .arr [.str "https://223.5.5.5/dns-query", .str "https://1.12.12.12/dns-query"]

/-- The constant `trustDnsList` (source lines 19-23). -/
def trustDnsList : Value :=
  .arr [.str "quic://dns.cooluc.com", .str "https://1.0.0.1/dns-query", .str "https://1.1.1.1/dns-query"]

/-- The constant `githubPrefix` (source line 94). -/
def githubPrefix : String := "https://fastgh.lainbo.com/"

/-- The object literal assigned to `config.dns` (source lines 26-55). -/
def dns : Value :=
  .obj [
    ("enable", .bool true),
    ("prefer-h3", .bool true),
    ("default-nameserver", cnDnsList),
    ("nameserver", trustDnsList),
    ("nameserver-policy", .obj [
      ("geosite:cn", cnDnsList),
      ("geosite:gfw", trustDnsList),
      ("geosite:google", trustDnsList)]),
    ("fallback", trustDnsList),
    ("fallback-filter", .obj [
      ("geoip", .bool true),
      ("geoip-code", .str "CN"),
      ("geosite", .arr [.str "gfw"]),
      ("ipcidr", .arr [.str "240.0.0.0/4"]),
      ("domain", .arr [.str "+.google.com", .str "+.facebook.com", .str "+.youtube.com"])])]

/-- The object literal assigned to `config.profile` (source lines 66-69). -/
def profile : Value :=
  .obj [
    ("store-selected", .bool true),
    ("store-fake-ip", .bool true)]

/-- The object literal assigned to `config.sniffer` (source lines 72-85). -/
def sniffer : Value :=
  .obj [
    ("enable", .bool true),
    ("sniff", .obj [
      ("TLS", .obj [
        ("ports", .arr [.num 443, .num 8443])]),
      ("HTTP", .obj [
        ("ports", .arr [.num 80, .str "8080-8880"]),
        ("override-destination", .bool true)])])]

/-- The constant `rawGeoxURLs` (source lines 97-103): upstream download addresses by key. -/
def rawGeoxURLs : List (String × String) := [
  ("geoip", "https://github.com/MetaCubeX/meta-rules-dat/releases/download/latest/geoip-lite.dat"),
  ("geosite", "https://github.com/MetaCubeX/meta-rules-dat/releases/download/latest/geosite.dat"),
  ("mmdb", "https://github.com/MetaCubeX/meta-rules-dat/releases/download/latest/country-lite.mmdb")]

/-- The array literal assigned to `config["proxy-groups"]` (source lines 116-561),
entries and fields in source order. -/
def proxyGroups : List Value := [
  .obj [
    ("name", .str "节点选择"),
    ("icon", .str "https://testingcf.jsdelivr.net/gh/Koolson/Qure@master/IconSet/Color/Proxy.png"),
    ("type", .str "select"),
    ("proxies", .arr [
      .str "自动选择", .str "香港节点", .str "台湾节点", .str "狮城节点",
      .str "美国节点", .str "日本节点", .str "韩国节点", .str "其他节点",
      .str "手动切换", .str "DIRECT"])],
  .obj [
    ("name", .str "自动选择"),
    ("icon", .str "https://testingcf.jsdelivr.net/gh/Koolson/Qure@master/IconSet/Color/Auto.png"),
    ("type", .str "url-test"),
    ("include-all", .bool true),
    ("exclude-filter", .str "香港|Hong Kong|HK|hk|hongkong|HongKong"),
    ("interval", .num 300),
    ("tolerance", .num 50)],
  .obj [
    ("name", .str "手动切换"),
    ("icon", .str "https://testingcf.jsdelivr.net/gh/shindgewongxj/WHATSINStash@master/icon/select.png"),
    ("include-all", .bool true),
    ("type", .str "select")],
  .obj [
    ("name", .str "AI节点"),
    ("icon", .str "https://testingcf.jsdelivr.net/gh/Koolson/Qure@master/IconSet/Color/Bot.png"),
    ("type", .str "select"),
    ("proxies", .arr [
      .str "美国节点", .str "节点选择", .str "自动选择", .str "狮城节点",
      .str "香港节点", .str "台湾节点", .str "日本节点", .str "韩国节点",
      .str "其他节点", .str "手动切换", .str "DIRECT"])],
  .obj [
    ("name", .str "电报消息"),
    ("icon", .str "https://testingcf.jsdelivr.net/gh/Koolson/Qure@master/IconSet/Color/Telegram.png"),
    ("type", .str "select"),
    ("proxies", .arr [
      .str "美国节点", .str "节点选择", .str "自动选择", .str "狮城节点",
      .str "香港节点", .str "台湾节点", .str "日本节点", .str "韩国节点",
      .str "其他节点", .str "手动切换", .str "DIRECT"])],
  .obj [
    ("name", .str "油管视频"),
    ("icon", .str "https://testingcf.jsdelivr.net/gh/Koolson/Qure@master/IconSet/Color/YouTube.png"),
    ("type", .str "select"),
    ("proxies", .arr [
      .str "节点选择", .str "自动选择", .str "狮城节点", .str "香港节点",
      .str "台湾节点", .str "日本节点", .str "美国节点", .str "韩国节点",
      .str "其他节点", .str "手动切换", .str "DIRECT"])],
  .obj [
    ("name", .str "奈飞视频"),
    ("icon", .str "https://testingcf.jsdelivr.net/gh/Koolson/Qure@master/IconSet/Color/Netflix.png"),
    ("type", .str "select"),
    ("proxies", .arr [
      .str "节点选择", .str "自动选择", .str "狮城节点", .str "香港节点",
      .str "台湾节点", .str "日本节点", .str "美国节点", .str "韩国节点",
      .str "其他节点", .str "手动切换", .str "DIRECT"])],
  .obj [
    ("name", .str "国内媒体"),
    ("icon", .str "https://testingcf.jsdelivr.net/gh/Koolson/Qure@master/IconSet/Color/DomesticMedia.png"),
    ("type", .str "select"),
    ("proxies", .arr [
      .str "DIRECT", .str "香港节点", .str "台湾节点", .str "狮城节点",
      .str "日本节点", .str "美国节点", .str "韩国节点", .str "其他节点",
      .str "手动切换"])],
  .obj [
    ("name", .str "国外媒体"),
    ("icon", .str "https://testingcf.jsdelivr.net/gh/Koolson/Qure@master/IconSet/Color/ForeignMedia.png"),
    ("type", .str "select"),
    ("proxies", .arr [
      .str "节点选择", .str "自动选择", .str "香港节点", .str "台湾节点",
      .str "狮城节点", .str "日本节点", .str "美国节点", .str "韩国节点",
      .str "其他节点", .str "手动切换", .str "DIRECT"])],
  .obj [
    ("name", .str "谷歌FCM"),
    ("icon", .str "https://testingcf.jsdelivr.net/gh/Koolson/Qure@master/IconSet/Color/Google_Search.png"),
    ("type", .str "select"),
    ("proxies", .arr [
      .str "DIRECT", .str "节点选择", .str "美国节点", .str "香港节点",
      .str "台湾节点", .str "狮城节点", .str "日本节点", .str "韩国节点",
      .str "其他节点", .str "手动切换"])],
  .obj [
    ("name", .str "微软Bing"),
    ("icon", .str "https://testingcf.jsdelivr.net/gh/shindgewongxj/WHATSINStash@master/icon/bing.png"),
    ("type", .str "select"),
    ("proxies", .arr [
      .str "DIRECT", .str "节点选择", .str "美国节点", .str "香港节点",
      .str "台湾节点", .str "狮城节点", .str "日本节点", .str "韩国节点",
      .str "其他节点", .str "手动切换"])],
  .obj [
    ("name", .str "微软云盘"),
    ("icon", .str "https://testingcf.jsdelivr.net/gh/Koolson/Qure@master/IconSet/Color/OneDrive.png"),
    ("type", .str "select"),
    ("proxies", .arr [
      .str "DIRECT", .str "节点选择", .str "美国节点", .str "香港节点",
      .str "台湾节点", .str "狮城节点", .str "日本节点", .str "韩国节点",
      .str "其他节点", .str "手动切换"])],
  .obj [
    ("name", .str "微软服务"),
    ("icon", .str "https://testingcf.jsdelivr.net/gh/Koolson/Qure@master/IconSet/Color/Microsoft.png"),
    ("type", .str "select"),
    ("proxies", .arr [
      .str "节点选择", .str "DIRECT", .str "美国节点", .str "香港节点",
      .str "台湾节点", .str "狮城节点", .str "日本节点", .str "韩国节点",
      .str "其他节点", .str "手动切换"])],
  .obj [
    ("name", .str "苹果服务"),
    ("icon", .str "https://testingcf.jsdelivr.net/gh/Koolson/Qure@master/IconSet/Color/Apple.png"),
    ("type", .str "select"),
    ("proxies", .arr [
      .str "DIRECT", .str "节点选择", .str "美国节点", .str "香港节点",
      .str "台湾节点", .str "狮城节点", .str "日本节点", .str "韩国节点",
      .str "其他节点", .str "手动切换"])],
  .obj [
    ("name", .str "游戏平台"),
    ("icon", .str "https://testingcf.jsdelivr.net/gh/Koolson/Qure@master/IconSet/Color/Game.png"),
    ("type", .str "select"),
    ("proxies", .arr [
      .str "DIRECT", .str "节点选择", .str "美国节点", .str "香港节点",
      .str "台湾节点", .str "狮城节点", .str "日本节点", .str "韩国节点",
      .str "其他节点", .str "手动切换"])],
  .obj [
    ("name", .str "全球直连"),
    ("icon", .str "https://testingcf.jsdelivr.net/gh/Koolson/Qure@master/IconSet/Color/Direct.png"),
    ("type", .str "select"),
    ("proxies", .arr [.str "DIRECT", .str "节点选择", .str "自动选择"])],
  .obj [
    ("name", .str "广告拦截"),
    ("icon", .str "https://testingcf.jsdelivr.net/gh/Koolson/Qure@master/IconSet/Color/AdBlack.png"),
    ("type", .str "select"),
    ("proxies", .arr [.str "REJECT", .str "DIRECT"])],
  .obj [
    ("name", .str "应用净化"),
    ("icon", .str "https://testingcf.jsdelivr.net/gh/Koolson/Qure@master/IconSet/Color/Hijacking.png"),
    ("type", .str "select"),
    ("proxies", .arr [.str "REJECT", .str "DIRECT"])],
  .obj [
    ("name", .str "漏网之鱼"),
    ("icon", .str "https://testingcf.jsdelivr.net/gh/Koolson/Qure@master/IconSet/Color/Final.png"),
    ("type", .str "select"),
    ("proxies", .arr [
      .str "节点选择", .str "自动选择", .str "DIRECT", .str "香港节点",
      .str "台湾节点", .str "狮城节点", .str "日本节点", .str "美国节点",
      .str "韩国节点", .str "其他节点", .str "手动切换"])],
  .obj [
    ("name", .str "香港节点"),
    ("icon", .str "https://testingcf.jsdelivr.net/gh/Koolson/Qure@master/IconSet/Color/Hong_Kong.png"),
    ("include-all", .bool true),
    ("filter", .str "港|HK|hk|Hong Kong|HongKong|hongkong"),
    ("type", .str "url-test"),
    ("interval", .num 300),
    ("tolerance", .num 50)],
  .obj [
    ("name", .str "台湾节点"),
    ("icon", .str "https://testingcf.jsdelivr.net/gh/Koolson/Qure@master/IconSet/Color/Taiwan.png"),
    ("include-all", .bool true),
    ("filter", .str "台|新北|彰化|TW|tw|Taiwan|taiwan"),
    ("type", .str "url-test"),
    ("interval", .num 300),
    ("tolerance", .num 50)],
  .obj [
    ("name", .str "狮城节点"),
    ("icon", .str "https://testingcf.jsdelivr.net/gh/Koolson/Qure@master/IconSet/Color/Singapore.png"),
    ("include-all", .bool true),
    ("filter", .str "新加坡|坡|狮城|SG|sg|Singapore|singapore"),
    ("type", .str "url-test"),
    ("interval", .num 300),
    ("tolerance", .num 50)],
  .obj [
    ("name", .str "美国节点"),
    ("icon", .str "https://testingcf.jsdelivr.net/gh/Koolson/Qure@master/IconSet/Color/United_States.png"),
    ("include-all", .bool true),
    ("filter", .str "美|波特兰|达拉斯|俄勒冈|凤凰城|费利蒙|硅谷|拉斯维加斯|洛杉矶|圣何塞|圣克拉拉|西雅图|芝加哥|US|us|United States"),
    ("type", .str "url-test"),
    ("interval", .num 300),
    ("tolerance", .num 50)],
  .obj [
    ("name", .str "日本节点"),
    ("icon", .str "https://testingcf.jsdelivr.net/gh/Koolson/Qure@master/IconSet/Color/Japan.png"),
    ("include-all", .bool true),
    ("filter", .str "日本|川日|东京|大阪|泉日|埼玉|沪日|深日|JP|jp|Japan|japan"),
    ("type", .str "url-test"),
    ("interval", .num 300),
    ("tolerance", .num 50)],
  .obj [
    ("name", .str "韩国节点"),
    ("icon", .str "https://testingcf.jsdelivr.net/gh/Koolson/Qure@master/IconSet/Color/Korea.png"),
    ("include-all", .bool true),
    ("filter", .str "KR|kr|Korea|korea|KOR|kor|首尔|韩"),
    ("type", .str "url-test"),
    ("interval", .num 300),
    ("tolerance", .num 50)],
  .obj [
    ("name", .str "其他节点"),
    ("icon", .str "https://testingcf.jsdelivr.net/gh/Koolson/Qure@master/IconSet/Color/Global.png"),
    ("include-all", .bool true),
    ("exclude-filter", .str "港|HK|hk|Hong Kong|HongKong|hongkong|台|新北|彰化|TW|tw|Taiwan|taiwan|新加坡|坡|狮城|SG|sg|Singapore|singapore|美|波特兰|达拉斯|俄勒冈|凤凰城|费利蒙|硅谷|拉斯维加斯|洛杉矶|圣何塞|圣克拉拉|西雅图|芝加哥|US|us|United States|日本|川日|东京|大阪|泉日|埼玉|沪日|深日|JP|jp|Japan|japan|KR|kr|Korea|korea|KOR|kor|首尔|韩"),
    ("type", .str "url-test"),
    ("interval", .num 300),
    ("tolerance", .num 50)],
  .obj [
    ("name", .str "GLOBAL"),
    ("icon", .str "https://testingcf.jsdelivr.net/gh/Koolson/Qure@master/IconSet/Color/Global.png"),
    ("include-all", .bool true),
    ("type", .str "select"),
    ("proxies", .arr [
      .str "节点选择", .str "自动选择", .str "手动切换", .str "AI节点",
      .str "电报消息", .str "油管视频", .str "奈飞视频", .str "国内媒体",
      .str "国外媒体", .str "谷歌FCM", .str "微软Bing", .str "微软云盘",
      .str "微软服务", .str "苹果服务", .str "游戏平台", .str "全球直连",
      .str "广告拦截", .str "应用净化", .str "漏网之鱼", .str "香港节点",
      .str "台湾节点", .str "狮城节点", .str "美国节点", .str "日本节点",
      .str "韩国节点", .str "其他节点"])]]

/-- The object literal assigned to `config["rule-providers"]` (source lines 566-855),
keys and fields in source order. -/
def ruleProviders : List (String × Value) := [
  ("LocalAreaNetwork", .obj [
    ("url", .str "https://testingcf.jsdelivr.net/gh/ACL4SSR/ACL4SSR@master/Clash/LocalAreaNetwork.list"),
    ("path", .str "./ruleset/LocalAreaNetwork.list"),
    ("behavior", .str "classical"),
    ("interval", .num 86400),
    ("format", .str "text"),
    ("type", .str "http")]),
  ("MyCustomDirect", .obj [
    ("type", .str "http"),
    ("behavior", .str "classical"),
    ("url", .str "https://testingcf.jsdelivr.net/gh/AEI-boop/clash_rule@main/MyCustomDirect.list"),
    ("path", .str "./ruleset/MyCustomDirect.list"),
    ("interval", .num 86400),
    ("format", .str "text")]),
  ("UnBan", .obj [
    ("url", .str "https://testingcf.jsdelivr.net/gh/ACL4SSR/ACL4SSR@master/Clash/UnBan.list"),
    ("path", .str "./ruleset/UnBan.list"),
    ("behavior", .str "classical"),
    ("interval", .num 86400),
    ("format", .str "text"),
    ("type", .str "http")]),
  ("BanAD", .obj [
    ("url", .str "https://testingcf.jsdelivr.net/gh/ACL4SSR/ACL4SSR@master/Clash/BanAD.list"),
    ("path", .str "./ruleset/BanAD.list"),
    ("behavior", .str "classical"),
    ("interval", .num 86400),
    ("format", .str "text"),
    ("type", .str "http")]),
  ("BanProgramAD", .obj [
    ("url", .str "https://testingcf.jsdelivr.net/gh/ACL4SSR/ACL4SSR@master/Clash/BanProgramAD.list"),
    ("path", .str "./ruleset/BanProgramAD.list"),
    ("behavior", .str "classical"),
    ("interval", .num 86400),
    ("format", .str "text"),
    ("type", .str "http")]),
  ("GoogleFCM", .obj [
    ("url", .str "https://testingcf.jsdelivr.net/gh/ACL4SSR/ACL4SSR@master/Clash/Ruleset/GoogleFCM.list"),
    ("path", .str "./ruleset/GoogleFCM.list"),
    ("behavior", .str "classical"),
    ("interval", .num 86400),
    ("format", .str "text"),
    ("type", .str "http")]),
  ("GoogleCN", .obj [
    ("url", .str "https://testingcf.jsdelivr.net/gh/ACL4SSR/ACL4SSR@master/Clash/GoogleCN.list"),
    ("path", .str "./ruleset/GoogleCN.list"),
    ("behavior", .str "classical"),
    ("interval", .num 86400),
    ("format", .str "text"),
    ("type", .str "http")]),
  ("SteamCN", .obj [
    ("url", .str "https://testingcf.jsdelivr.net/gh/ACL4SSR/ACL4SSR@master/Clash/Ruleset/SteamCN.list"),
    ("path", .str "./ruleset/SteamCN.list"),
    ("behavior", .str "classical"),
    ("interval", .num 86400),
    ("format", .str "text"),
    ("type", .str "http")]),
  ("Bing", .obj [
    ("url", .str "https://testingcf.jsdelivr.net/gh/ACL4SSR/ACL4SSR@master/Clash/Bing.list"),
    ("path", .str "./ruleset/Bing.list"),
    ("behavior", .str "classical"),
    ("interval", .num 86400),
    ("format", .str "text"),
    ("type", .str "http")]),
  ("OneDrive", .obj [
    ("url", .str "https://testingcf.jsdelivr.net/gh/ACL4SSR/ACL4SSR@master/Clash/OneDrive.list"),
    ("path", .str "./ruleset/OneDrive.list"),
    ("behavior", .str "classical"),
    ("interval", .num 86400),
    ("format", .str "text"),
    ("type", .str "http")]),
  ("Microsoft", .obj [
    ("url", .str "https://testingcf.jsdelivr.net/gh/ACL4SSR/ACL4SSR@master/Clash/Microsoft.list"),
    ("path", .str "./ruleset/Microsoft.list"),
    ("behavior", .str "classical"),
    ("interval", .num 86400),
    ("format", .str "text"),
    ("type", .str "http")]),
  ("Apple", .obj [
    ("url", .str "https://testingcf.jsdelivr.net/gh/ACL4SSR/ACL4SSR@master/Clash/Apple.list"),
    ("path", .str "./ruleset/Apple.list"),
    ("behavior", .str "classical"),
    ("interval", .num 86400),
    ("format", .str "text"),
    ("type", .str "http")]),
  ("Telegram", .obj [
    ("url", .str "https://testingcf.jsdelivr.net/gh/ACL4SSR/ACL4SSR@master/Clash/Telegram.list"),
    ("path", .str "./ruleset/Telegram.list"),
    ("behavior", .str "classical"),
    ("interval", .num 86400),
    ("format", .str "text"),
    ("type", .str "http")]),
  ("AI平台-国外", .obj [
    ("url", .str "https://testingcf.jsdelivr.net/gh/ACL4SSR/ACL4SSR@master/Clash/Ruleset/AI.list"),
    ("path", .str "./ruleset/AI.list"),
    ("behavior", .str "classical"),
    ("interval", .num 86400),
    ("format", .str "text"),
    ("type", .str "http")]),
  ("NetEaseMusic", .obj [
    ("url", .str "https://testingcf.jsdelivr.net/gh/ACL4SSR/ACL4SSR@master/Clash/Ruleset/NetEaseMusic.list"),
    ("path", .str "./ruleset/NetEaseMusic.list"),
    ("behavior", .str "classical"),
    ("interval", .num 86400),
    ("format", .str "text"),
    ("type", .str "http")]),
  ("Epic", .obj [
    ("url", .str "https://testingcf.jsdelivr.net/gh/ACL4SSR/ACL4SSR@master/Clash/Ruleset/Epic.list"),
    ("path", .str "./ruleset/Epic.list"),
    ("behavior", .str "classical"),
    ("interval", .num 86400),
    ("format", .str "text"),
    ("type", .str "http")]),
  ("Origin", .obj [
    ("url", .str "https://testingcf.jsdelivr.net/gh/ACL4SSR/ACL4SSR@master/Clash/Ruleset/Origin.list"),
    ("path", .str "./ruleset/Origin.list"),
    ("behavior", .str "classical"),
    ("interval", .num 86400),
    ("format", .str "text"),
    ("type", .str "http")]),
  ("Sony", .obj [
    ("url", .str "https://testingcf.jsdelivr.net/gh/ACL4SSR/ACL4SSR@master/Clash/Ruleset/Sony.list"),
    ("path", .str "./ruleset/Sony.list"),
    ("behavior", .str "classical"),
    ("interval", .num 86400),
    ("format", .str "text"),
    ("type", .str "http")]),
  ("Steam", .obj [
    ("url", .str "https://testingcf.jsdelivr.net/gh/ACL4SSR/ACL4SSR@master/Clash/Ruleset/Steam.list"),
    ("path", .str "./ruleset/Steam.list"),
    ("behavior", .str "classical"),
    ("interval", .num 86400),
    ("format", .str "text"),
    ("type", .str "http")]),
  ("Nintendo", .obj [
    ("url", .str "https://testingcf.jsdelivr.net/gh/ACL4SSR/ACL4SSR@master/Clash/Ruleset/Nintendo.list"),
    ("path", .str "./ruleset/Nintendo.list"),
    ("behavior", .str "classical"),
    ("interval", .num 86400),
    ("format", .str "text"),
    ("type", .str "http")]),
  ("YouTube", .obj [
    ("url", .str "https://testingcf.jsdelivr.net/gh/ACL4SSR/ACL4SSR@master/Clash/Ruleset/YouTube.list"),
    ("path", .str "./ruleset/YouTube.list"),
    ("behavior", .str "classical"),
    ("interval", .num 86400),
    ("format", .str "text"),
    ("type", .str "http")]),
  ("Netflix", .obj [
    ("url", .str "https://testingcf.jsdelivr.net/gh/ACL4SSR/ACL4SSR@master/Clash/Ruleset/Netflix.list"),
    ("path", .str "./ruleset/Netflix.list"),
    ("behavior", .str "classical"),
    ("interval", .num 86400),
    ("format", .str "text"),
    ("type", .str "http")]),
  ("Bahamut", .obj [
    ("url", .str "https://testingcf.jsdelivr.net/gh/ACL4SSR/ACL4SSR@master/Clash/Ruleset/Bahamut.list"),
    ("path", .str "./ruleset/Bahamut.list"),
    ("behavior", .str "classical"),
    ("interval", .num 86400),
    ("format", .str "text"),
    ("type", .str "http")]),
  ("ChinaMedia", .obj [
    ("url", .str "https://testingcf.jsdelivr.net/gh/ACL4SSR/ACL4SSR@master/Clash/ChinaMedia.list"),
    ("path", .str "./ruleset/ChinaMedia.list"),
    ("behavior", .str "classical"),
    ("interval", .num 86400),
    ("format", .str "text"),
    ("type", .str "http")]),
  ("ProxyMedia", .obj [
    ("url", .str "https://testingcf.jsdelivr.net/gh/ACL4SSR/ACL4SSR@master/Clash/ProxyMedia.list"),
    ("path", .str "./ruleset/ProxyMedia.list"),
    ("behavior", .str "classical"),
    ("interval", .num 86400),
    ("format", .str "text"),
    ("type", .str "http")]),
  ("ProxyGFWlist", .obj [
    ("url", .str "https://testingcf.jsdelivr.net/gh/ACL4SSR/ACL4SSR@master/Clash/ProxyGFWlist.list"),
    ("path", .str "./ruleset/ProxyGFWlist.list"),
    ("behavior", .str "classical"),
    ("interval", .num 86400),
    ("format", .str "text"),
    ("type", .str "http")]),
  ("ChinaDomain", .obj [
    ("url", .str "https://testingcf.jsdelivr.net/gh/ACL4SSR/ACL4SSR@master/Clash/ChinaDomain.list"),
    ("path", .str "./ruleset/ChinaDomain.list"),
    ("behavior", .str "domain"),
    ("interval", .num 86400),
    ("format", .str "text"),
    ("type", .str "http")]),
  ("ChinaCompanyIp", .obj [
    ("url", .str "https://testingcf.jsdelivr.net/gh/ACL4SSR/ACL4SSR@master/Clash/ChinaCompanyIp.list"),
    ("path", .str "./ruleset/ChinaCompanyIp.list"),
    ("behavior", .str "ipcidr"),
    ("interval", .num 86400),
    ("format", .str "text"),
    ("type", .str "http")]),
  ("Download", .obj [
    ("url", .str "https://testingcf.jsdelivr.net/gh/ACL4SSR/ACL4SSR@master/Clash/Download.list"),
    ("path", .str "./ruleset/Download.list"),
    ("behavior", .str "classical"),
    ("interval", .num 86400),
    ("format", .str "text"),
    ("type", .str "http")])]

/-- The array literal assigned to `config["rules"]` (source lines 861-896). -/
def rules : List String := [
  "RULE-SET,MyCustomDirect,全球直连",
  "RULE-SET,LocalAreaNetwork,全球直连",
  "RULE-SET,UnBan,全球直连",
  "RULE-SET,BanAD,广告拦截",
  "RULE-SET,BanProgramAD,应用净化",
  "RULE-SET,GoogleFCM,谷歌FCM",
  "RULE-SET,GoogleCN,全球直连",
  "RULE-SET,SteamCN,全球直连",
  "RULE-SET,Bing,微软Bing",
  "RULE-SET,OneDrive,微软云盘",
  "RULE-SET,Microsoft,微软服务",
  "RULE-SET,Apple,苹果服务",
  "RULE-SET,Telegram,电报消息",
  "RULE-SET,AI平台-国外,AI节点",
  "RULE-SET,Epic,游戏平台",
  "RULE-SET,Origin,游戏平台",
  "RULE-SET,Sony,游戏平台",
  "RULE-SET,Steam,游戏平台",
  "RULE-SET,Nintendo,游戏平台",
  "RULE-SET,YouTube,油管视频",
  "RULE-SET,Netflix,奈飞视频",
  "RULE-SET,ChinaMedia,国内媒体",
  "RULE-SET,ProxyMedia,国外媒体",
  "RULE-SET,ProxyGFWlist,节点选择",
  "RULE-SET,ChinaDomain,全球直连",
  "RULE-SET,ChinaCompanyIp,全球直连",
  "RULE-SET,Download,全球直连",
  "GEOIP,CN,全球直连",
  "MATCH,漏网之鱼"]
/-- The value assigned to `config["geox-url"]` (source lines 106-111): every
entry of `rawGeoxURLs` keeps its key and gets `githubPrefix` in front of its address. -/
def geoxUrl : Obj :=
  objectFromEntries
    (rawGeoxURLs.map (fun entry => (entry.1, Value.str (githubPrefix ++ entry.2))))

/-- The function `main(config)` (source lines 6-900): ten assignments to the
given mapping, in source order, and the mapping is returned. -/
def main (config : Obj) : Obj :=
  let config := setProp config "dns" dns
  let config := setProp config "unified-delay" (.bool true)
  let config := setProp config "tcp-concurrent" (.bool true)
  let config := setProp config "profile" profile
  let config := setProp config "sniffer" sniffer
  let config := setProp config "geodata-mode" (.bool true)
  let config := setProp config "geox-url" (.obj geoxUrl)
  let config := setProp config "proxy-groups" (.arr proxyGroups)
  let config := setProp config "rule-providers" (.obj ruleProviders)
  let config := setProp config "rules" (.arr (rules.map Value.str))
  config

/-! ## Views of a configuration -/

/-- The ten keys that `main` assigns, in the order of the assignments. -/
def assignedKeys : List String :=
  ["dns", "unified-delay", "tcp-concurrent", "profile", "sniffer", "geodata-mode",
   "geox-url", "proxy-groups", "rule-providers", "rules"]

/-- The `rules` sequence of a configuration: present, an array, all items strings. -/
def rulesOf (config : Obj) : Option (List String) :=
  match getProp config "rules" with
  | some (.arr xs) => allStr? xs
  | _ => none

/-- The `proxy-groups` sequence of a configuration: present and an array. -/
def proxyGroupsOf (config : Obj) : Option (List Value) :=
  match getProp config "proxy-groups" with
  | some (.arr gs) => some gs
  | _ => none

/-- The `rule-providers` mapping of a configuration: present and an object. -/
def ruleProvidersOf (config : Obj) : Option Obj :=
  match getProp config "rule-providers" with
  | some (.obj ps) => some ps
  | _ => none

/-- A string-valued field of an object value. -/
def strField? (v : Value) (k : String) : Option String :=
  match v.field? k with
  | some (.str s) => some s
  | _ => none

/-- The `name` of a proxy group. -/
def groupName? (g : Value) : Option String := strField? g "name"

/-- The `proxies` list of a proxy group, `none` when the group has none. -/
def groupProxies? (g : Value) : Option (List String) :=
  match g.field? "proxies" with
  | some (.arr xs) => allStr? xs
  | _ => none

/-- The first group of the sequence that carries the given name. -/
def findGroup? (gs : List Value) (name : String) : Option Value :=
  gs.find? (fun g => groupName? g == some name)

/-- Whether `s` begins with `pre`, as `s.startsWith(pre)`. -/
def startsWith (s pre : String) : Bool := pre.data.isPrefixOf s.data

/-- Splitting of a character list at every occurrence of `sep`; the result is never empty. -/
def splitChars (sep : Char) : List Char → List (List Char)
  | [] => [[]]
  | c :: cs =>
    match splitChars sep cs with
    | [] => [[]]
    | f :: fs => if c = sep then [] :: f :: fs else (c :: f) :: fs

/-- Splitting of a string at every occurrence of `sep`, as `s.split(sep)`. -/
def split (s : String) (sep : Char) : List String :=
  (splitChars sep s.data).map String.mk

/-- The target of a rule: the text after its last comma, `none` when it has no comma. -/
def ruleTarget? (r : String) : Option String :=
  match split r ',' with
  | _ :: f :: fs => (f :: fs).getLast?
  | _ => none

/-- The provider key of a rule `"RULE-SET,<key>,<target>"`: the text between
the first and the last comma, `none` when the rule is not of that form. -/
def ruleSetKey? (r : String) : Option String :=
  match split r ',' with
  | kind :: f :: g :: fs =>
    if kind = "RULE-SET" then some (",".intercalate (f :: g :: fs).dropLast) else none
  | _ => none

/-- The `path` of a rule provider. -/
def providerPath? (p : Value) : Option String := strField? p "path"

/-- The `url` of a rule provider. -/
def providerUrl? (p : Value) : Option String := strField? p "url"

/-- The last `/`-separated segment of an address. -/
def lastSegment (url : String) : String :=
  ((split url '/').getLast?).getD ""

/-- The `|`-separated alternatives of a filter expression. -/
def alternatives (filter : String) : List String := split filter '|'

/-- The names of the six regional groups that select nodes with a `filter`. -/
def regionalGroupNames : List String :=
  ["香港节点", "台湾节点", "狮城节点", "美国节点", "日本节点", "韩国节点"]

/-- The `filter` strings of the named groups, `none` if a group or its filter is missing. -/
def filtersOf? (gs : List Value) : List String → Option (List String)
  | [] => some []
  | n :: ns =>
    match (findGroup? gs n).bind (fun g => strField? g "filter"), filtersOf? gs ns with
    | some f, some fs => some (f :: fs)
    | _, _ => none

/-- The `exclude-filter` string of the named group. -/
def excludeFilterOf? (gs : List Value) (name : String) : Option String :=
  (findGroup? gs name).bind (fun g => strField? g "exclude-filter")

/-- The names of the service-specific groups, from `AI节点` through `漏网之鱼`. -/
def serviceGroupNames : List String :=
  ["AI节点", "电报消息", "油管视频", "奈飞视频", "国内媒体", "国外媒体", "谷歌FCM", "微软Bing",
   "微软云盘", "微软服务", "苹果服务", "游戏平台", "全球直连", "广告拦截", "应用净化", "漏网之鱼"]

/-- The `proxies` list of the named group. -/
def proxiesOfGroup? (gs : List Value) (name : String) : Option (List String) :=
  (findGroup? gs name).bind groupProxies?

/-- The names of all groups of the sequence, `none` if a group has no string name. -/
def groupNames? : List Value → Option (List String)
  | [] => some []
  | g :: gs =>
    match groupName? g, groupNames? gs with
    | some n, some ns => some (n :: ns)
    | _, _ => none

/-- The `geox-url` mapping of a configuration: present and an object. -/
def geoxUrlOf (config : Obj) : Option Obj :=
  match getProp config "geox-url" with
  | some (.obj g) => some g
  | _ => none

/-- The `type` of a proxy group or of a rule provider. -/
def typeOf? (v : Value) : Option String := strField? v "type"

/-- Whether an object value has the field `k`. -/
def hasField (v : Value) (k : String) : Bool := (v.field? k).isSome

/-- A number-valued field of an object value. -/
def numField? (v : Value) (k : String) : Option Int :=
  match v.field? k with
  | some (.num n) => some n
  | _ => none

/-- A boolean-valued field of an object value. -/
def boolField? (v : Value) (k : String) : Option Bool :=
  match v.field? k with
  | some (.bool b) => some b
  | _ => none

/-- The field names of an object value, empty for a value that is not an object. -/
def fieldNames (v : Value) : List String :=
  match v with
  | .obj fs => ownKeys fs
  | _ => []

/-- Whether the group at position `i` references the group at position `j`:
the name of the latter occurs in the `proxies` list of the former. -/
def references (gs : List Value) (i j : Nat) : Bool :=
  match gs[i]?, gs[j]? with
  | some g, some h =>
    match groupProxies? g, groupName? h with
    | some ps, some n => ps.contains n
    | _, _ => false
  | _, _ => false

/-- The length of the longest chain of references that starts at the group
with the given name, followed for at most `fuel` steps; a name without a
`proxies` list has depth zero. -/
def referenceDepth (gs : List Value) : Nat → String → Nat
  | 0, _ => 0
  | fuel + 1, n =>
    match proxiesOfGroup? gs n with
    | some ps => 1 + (ps.map (referenceDepth gs fuel)).foldl max 0
    | none => 0

/-- The reference depth of the group at position `i`, with one step of fuel per group. -/
def depthAt (gs : List Value) (i : Nat) : Nat :=
  match gs[i]? with
  | some g =>
    match groupName? g with
    | some n => referenceDepth gs gs.length n
    | none => 0
  | none => 0

/-- The number of rules of the form `RULE-SET,<key>,<target>` whose key is `k`. -/
def ruleSetCount (rs : List String) (k : String) : Nat :=
  (rs.filter (fun r => ruleSetKey? r == some k)).length

/-! ## Property reads after assignments -/

theorem getProp_setProp_same (o : Obj) (k : String) (v : Value) :
    getProp (setProp o k v) k = some v := by
  induction o with
  | nil => simp [setProp, getProp]
  | cons kv rest ih =>
    obtain ⟨k', v'⟩ := kv
    by_cases h : k' = k
    · simp [setProp, getProp, h]
    · simp [setProp, getProp, h, ih]

theorem getProp_setProp_ne (o : Obj) (k k' : String) (v : Value) (h : k ≠ k') :
    getProp (setProp o k v) k' = getProp o k' := by
  induction o with
  | nil => simp [setProp, getProp, h]
  | cons kv rest ih =>
    obtain ⟨k'', v''⟩ := kv
    by_cases h1 : k'' = k
    · subst h1
      simp [setProp, getProp, h]
    · simp [setProp, getProp, h1, ih]

theorem mem_ownKeys_setProp (o : Obj) (k k' : String) (v : Value) :
    k' ∈ ownKeys (setProp o k v) ↔ k' ∈ ownKeys o ∨ k' = k := by
  induction o with
  | nil => simp [setProp, ownKeys]
  | cons kv rest ih =>
    obtain ⟨k'', v''⟩ := kv
    by_cases h1 : k'' = k
    · subst h1
      simp only [setProp, if_true, ownKeys, List.map_cons, List.mem_cons]
      tauto
    · have ih' : k' ∈ List.map Prod.fst (setProp rest k v) ↔
          k' ∈ List.map Prod.fst rest ∨ k' = k := ih
      simp only [setProp, h1, if_false, ownKeys, List.map_cons, List.mem_cons, ih']
      tauto

theorem mem_of_getProp (o : Obj) (k : String) (v : Value) (h : getProp o k = some v) :
    (k, v) ∈ o := by
  induction o with
  | nil => simp [getProp] at h
  | cons kv rest ih =>
    obtain ⟨k', v'⟩ := kv
    by_cases h1 : k' = k
    · subst h1
      simp only [getProp, if_true, Option.some.injEq] at h
      subst h
      exact List.mem_cons_self _ _
    · simp only [getProp, h1, if_false] at h
      exact List.mem_cons_of_mem _ (ih h)

theorem getProp_main_rules (config : Obj) :
    getProp (main config) "rules" = some (.arr (rules.map Value.str)) := by
  simp only [main]
  exact getProp_setProp_same _ _ _

theorem getProp_main_ruleProviders (config : Obj) :
    getProp (main config) "rule-providers" = some (.obj ruleProviders) := by
  simp only [main]
  rw [getProp_setProp_ne _ _ _ _ (by decide)]
  exact getProp_setProp_same _ _ _

theorem getProp_main_proxyGroups (config : Obj) :
    getProp (main config) "proxy-groups" = some (.arr proxyGroups) := by
  simp only [main]
  rw [getProp_setProp_ne _ _ _ _ (by decide), getProp_setProp_ne _ _ _ _ (by decide)]
  exact getProp_setProp_same _ _ _

theorem allStr?_map_str (ss : List String) : allStr? (ss.map Value.str) = some ss := by
  induction ss with
  | nil => rfl
  | cons s ss ih => simp [allStr?, Value.asStr?, ih]

theorem rulesOf_main (config : Obj) : rulesOf (main config) = some rules := by
  simp only [rulesOf, getProp_main_rules, allStr?_map_str]

theorem proxyGroupsOf_main (config : Obj) : proxyGroupsOf (main config) = some proxyGroups := by
  simp only [proxyGroupsOf, getProp_main_proxyGroups]

theorem ruleProvidersOf_main (config : Obj) :
    ruleProvidersOf (main config) = some ruleProviders := by
  simp only [ruleProvidersOf, getProp_main_ruleProviders]

/-! ## Further property reads -/

theorem getProp_main_geoxUrl (config : Obj) :
    getProp (main config) "geox-url" = some (.obj geoxUrl) := by
  simp only [main]
  rw [getProp_setProp_ne _ _ _ _ (by decide), getProp_setProp_ne _ _ _ _ (by decide),
    getProp_setProp_ne _ _ _ _ (by decide)]
  exact getProp_setProp_same _ _ _

theorem getProp_main_geodataMode (config : Obj) :
    getProp (main config) "geodata-mode" = some (.bool true) := by
  simp only [main]
  rw [getProp_setProp_ne _ _ _ _ (by decide), getProp_setProp_ne _ _ _ _ (by decide),
    getProp_setProp_ne _ _ _ _ (by decide), getProp_setProp_ne _ _ _ _ (by decide)]
  exact getProp_setProp_same _ _ _

theorem getProp_main_sniffer (config : Obj) :
    getProp (main config) "sniffer" = some sniffer := by
  simp only [main]
  rw [getProp_setProp_ne _ _ _ _ (by decide), getProp_setProp_ne _ _ _ _ (by decide),
    getProp_setProp_ne _ _ _ _ (by decide), getProp_setProp_ne _ _ _ _ (by decide),
    getProp_setProp_ne _ _ _ _ (by decide)]
  exact getProp_setProp_same _ _ _

theorem getProp_main_profile (config : Obj) :
    getProp (main config) "profile" = some profile := by
  simp only [main]
  rw [getProp_setProp_ne _ _ _ _ (by decide), getProp_setProp_ne _ _ _ _ (by decide),
    getProp_setProp_ne _ _ _ _ (by decide), getProp_setProp_ne _ _ _ _ (by decide),
    getProp_setProp_ne _ _ _ _ (by decide), getProp_setProp_ne _ _ _ _ (by decide)]
  exact getProp_setProp_same _ _ _

theorem getProp_main_tcpConcurrent (config : Obj) :
    getProp (main config) "tcp-concurrent" = some (.bool true) := by
  simp only [main]
  rw [getProp_setProp_ne _ _ _ _ (by decide), getProp_setProp_ne _ _ _ _ (by decide),
    getProp_setProp_ne _ _ _ _ (by decide), getProp_setProp_ne _ _ _ _ (by decide),
    getProp_setProp_ne _ _ _ _ (by decide), getProp_setProp_ne _ _ _ _ (by decide),
    getProp_setProp_ne _ _ _ _ (by decide)]
  exact getProp_setProp_same _ _ _

theorem getProp_main_unifiedDelay (config : Obj) :
    getProp (main config) "unified-delay" = some (.bool true) := by
  simp only [main]
  rw [getProp_setProp_ne _ _ _ _ (by decide), getProp_setProp_ne _ _ _ _ (by decide),
    getProp_setProp_ne _ _ _ _ (by decide), getProp_setProp_ne _ _ _ _ (by decide),
    getProp_setProp_ne _ _ _ _ (by decide), getProp_setProp_ne _ _ _ _ (by decide),
    getProp_setProp_ne _ _ _ _ (by decide), getProp_setProp_ne _ _ _ _ (by decide)]
  exact getProp_setProp_same _ _ _

theorem getProp_main_dns (config : Obj) :
    getProp (main config) "dns" = some dns := by
  simp only [main]
  rw [getProp_setProp_ne _ _ _ _ (by decide), getProp_setProp_ne _ _ _ _ (by decide),
    getProp_setProp_ne _ _ _ _ (by decide), getProp_setProp_ne _ _ _ _ (by decide),
    getProp_setProp_ne _ _ _ _ (by decide), getProp_setProp_ne _ _ _ _ (by decide),
    getProp_setProp_ne _ _ _ _ (by decide), getProp_setProp_ne _ _ _ _ (by decide),
    getProp_setProp_ne _ _ _ _ (by decide)]
  exact getProp_setProp_same _ _ _

theorem geoxUrlOf_main (config : Obj) : geoxUrlOf (main config) = some geoxUrl := by
  simp only [geoxUrlOf, getProp_main_geoxUrl]

/-- A key outside the assigned keys is read from the result as from the input. -/
theorem getProp_main_of_not_assigned (config : Obj) (k : String) (hk : k ∉ assignedKeys) :
    getProp (main config) k = getProp config k := by
  simp only [assignedKeys, List.mem_cons, List.mem_singleton, List.not_mem_nil, or_false,
    not_or] at hk
  obtain ⟨h1, h2, h3, h4, h5, h6, h7, h8, h9, h10⟩ := hk
  simp only [main]
  rw [getProp_setProp_ne _ _ _ _ (Ne.symm h10), getProp_setProp_ne _ _ _ _ (Ne.symm h9),
    getProp_setProp_ne _ _ _ _ (Ne.symm h8), getProp_setProp_ne _ _ _ _ (Ne.symm h7),
    getProp_setProp_ne _ _ _ _ (Ne.symm h6), getProp_setProp_ne _ _ _ _ (Ne.symm h5),
    getProp_setProp_ne _ _ _ _ (Ne.symm h4), getProp_setProp_ne _ _ _ _ (Ne.symm h3),
    getProp_setProp_ne _ _ _ _ (Ne.symm h2), getProp_setProp_ne _ _ _ _ (Ne.symm h1)]

/-- An assigned key is read from the result as from the result for the empty mapping. -/
theorem getProp_main_of_assigned (config : Obj) (k : String) (hk : k ∈ assignedKeys) :
    getProp (main config) k = getProp (main []) k := by
  simp only [assignedKeys, List.mem_cons, List.mem_singleton, List.not_mem_nil, or_false] at hk
  rcases hk with h | h | h | h | h | h | h | h | h | h <;> subst h
  · rw [getProp_main_dns, getProp_main_dns]
  · rw [getProp_main_unifiedDelay, getProp_main_unifiedDelay]
  · rw [getProp_main_tcpConcurrent, getProp_main_tcpConcurrent]
  · rw [getProp_main_profile, getProp_main_profile]
  · rw [getProp_main_sniffer, getProp_main_sniffer]
  · rw [getProp_main_geodataMode, getProp_main_geodataMode]
  · rw [getProp_main_geoxUrl, getProp_main_geoxUrl]
  · rw [getProp_main_proxyGroups, getProp_main_proxyGroups]
  · rw [getProp_main_ruleProviders, getProp_main_ruleProviders]
  · rw [getProp_main_rules, getProp_main_rules]

/-- An assigned key is bound in the result. -/
theorem isSome_getProp_main_of_assigned (config : Obj) (k : String) (hk : k ∈ assignedKeys) :
    (getProp (main config) k).isSome = true := by
  simp only [assignedKeys, List.mem_cons, List.mem_singleton, List.not_mem_nil, or_false] at hk
  rcases hk with h | h | h | h | h | h | h | h | h | h <;> subst h
  · rw [getProp_main_dns]; rfl
  · rw [getProp_main_unifiedDelay]; rfl
  · rw [getProp_main_tcpConcurrent]; rfl
  · rw [getProp_main_profile]; rfl
  · rw [getProp_main_sniffer]; rfl
  · rw [getProp_main_geodataMode]; rfl
  · rw [getProp_main_geoxUrl]; rfl
  · rw [getProp_main_proxyGroups]; rfl
  · rw [getProp_main_ruleProviders]; rfl
  · rw [getProp_main_rules]; rfl

/-- Assigning to a key the value it already has leaves the object as it is. -/
theorem setProp_of_getProp (o : Obj) (k : String) (v : Value) (h : getProp o k = some v) :
    setProp o k v = o := by
  induction o with
  | nil => simp [getProp] at h
  | cons kv rest ih =>
    obtain ⟨k', v'⟩ := kv
    by_cases h1 : k' = k
    · subst h1
      simp only [getProp, if_true, Option.some.injEq] at h
      subst h
      simp only [setProp, if_true]
    · simp only [getProp, h1, if_false] at h
      simp only [setProp, h1, if_false, ih h]

/-- A mapping that already binds the ten assigned keys to the assigned values
is a fixed point of `main`. -/
theorem main_eq_self (o : Obj)
    (h1 : getProp o "dns" = some dns)
    (h2 : getProp o "unified-delay" = some (.bool true))
    (h3 : getProp o "tcp-concurrent" = some (.bool true))
    (h4 : getProp o "profile" = some profile)
    (h5 : getProp o "sniffer" = some sniffer)
    (h6 : getProp o "geodata-mode" = some (.bool true))
    (h7 : getProp o "geox-url" = some (.obj geoxUrl))
    (h8 : getProp o "proxy-groups" = some (.arr proxyGroups))
    (h9 : getProp o "rule-providers" = some (.obj ruleProviders))
    (h10 : getProp o "rules" = some (.arr (rules.map Value.str))) :
    main o = o := by
  simp only [main]
  rw [setProp_of_getProp _ _ _ h1, setProp_of_getProp _ _ _ h2, setProp_of_getProp _ _ _ h3,
    setProp_of_getProp _ _ _ h4, setProp_of_getProp _ _ _ h5, setProp_of_getProp _ _ _ h6,
    setProp_of_getProp _ _ _ h7, setProp_of_getProp _ _ _ h8, setProp_of_getProp _ _ _ h9,
    setProp_of_getProp _ _ _ h10]

/-! ## Reference chains -/

/-- A relation along which a natural-number rank strictly decreases has no cycle. -/
theorem not_transGen_self_of_rank {α : Type} (R : α → α → Prop) (rank : α → Nat)
    (h : ∀ a b, R a b → rank b < rank a) (a : α) : ¬ Relation.TransGen R a a := by
  have hlt : ∀ x y, Relation.TransGen R x y → rank y < rank x := by
    intro x y hxy
    induction hxy with
    | single h1 => exact h _ _ h1
    | tail _ h2 ih => exact lt_trans (h _ _ h2) ih
  intro ha
  exact lt_irrefl _ (hlt a a ha)

/-- A reference relates two positions of the sequence. -/
theorem lt_length_of_references (gs : List Value) (i j : Nat)
    (h : references gs i j = true) : i < gs.length ∧ j < gs.length := by
  constructor
  · by_contra hi
    have hnone : gs[i]? = none := List.getElem?_eq_none (Nat.le_of_not_lt hi)
    simp [references, hnone] at h
  · by_contra hj
    have hnone : gs[j]? = none := List.getElem?_eq_none (Nat.le_of_not_lt hj)
    cases hg : gs[i]? <;> simp [references, hnone, hg] at h

/-- Along every reference between proxy groups the reference depth decreases. -/
theorem depthAt_lt_of_references (i j : Nat) (h : references proxyGroups i j = true) :
    depthAt proxyGroups j < depthAt proxyGroups i := by
  have hall : ∀ a < proxyGroups.length, ∀ b < proxyGroups.length,
      references proxyGroups a b = true → depthAt proxyGroups b < depthAt proxyGroups a := by
    decide!
  obtain ⟨hi, hj⟩ := lt_length_of_references proxyGroups i j h
  exact hall i hi j hj h

/-! ## The claims -/

/-- C1. Frame of `main`: a key `k` outside the ten assigned keys has in
`main config` exactly the binding it has in `config` (present in one exactly
when present in the other, with the same value); no key of `config` is removed,
and every key of the result is a key of `config` or one of the ten assigned keys. -/
theorem main_frame (config : Obj) (k : String) (hk : k ∉ assignedKeys) :
    getProp (main config) k = getProp config k ∧
    (k ∈ ownKeys (main config) ↔ k ∈ ownKeys config) ∧
    (∀ k', k' ∈ ownKeys config → k' ∈ ownKeys (main config)) ∧
    (∀ k', k' ∈ ownKeys (main config) → k' ∈ ownKeys config ∨ k' ∈ assignedKeys) := by
  simp only [assignedKeys, List.mem_cons, List.mem_singleton, List.not_mem_nil, or_false,
    not_or] at hk
  obtain ⟨h1, h2, h3, h4, h5, h6, h7, h8, h9, h10⟩ := hk
  refine ⟨?_, ?_, ?_, ?_⟩
  · simp only [main]
    rw [getProp_setProp_ne _ _ _ _ (Ne.symm h10), getProp_setProp_ne _ _ _ _ (Ne.symm h9),
      getProp_setProp_ne _ _ _ _ (Ne.symm h8), getProp_setProp_ne _ _ _ _ (Ne.symm h7),
      getProp_setProp_ne _ _ _ _ (Ne.symm h6), getProp_setProp_ne _ _ _ _ (Ne.symm h5),
      getProp_setProp_ne _ _ _ _ (Ne.symm h4), getProp_setProp_ne _ _ _ _ (Ne.symm h3),
      getProp_setProp_ne _ _ _ _ (Ne.symm h2), getProp_setProp_ne _ _ _ _ (Ne.symm h1)]
  · simp only [main, mem_ownKeys_setProp]
    tauto
  · intro k' hk'
    simp only [main, mem_ownKeys_setProp]
    tauto
  · intro k' hk'
    simp only [main, mem_ownKeys_setProp] at hk'
    simp only [assignedKeys, List.mem_cons, List.mem_singleton, List.not_mem_nil, or_false]
    tauto

/-- Witness of C1 on a configuration that carries a node list under `proxies`. -/
theorem main_frame_witness :
    "proxies" ∉ assignedKeys ∧
    getProp (main [("proxies", .arr [.str "node-a"])]) "proxies"
      = getProp [("proxies", .arr [.str "node-a"])] "proxies" :=
  ⟨by decide, (main_frame [("proxies", .arr [.str "node-a"])] "proxies" (by decide)).1⟩

/-- C2, as stated, fails: `main` applied to the empty mapping does not yield
exactly nine top-level keys. -/
theorem main_empty_not_nine_keys :
    ¬ ((ownKeys (main [])).length = 9 ∧ ∀ kv ∈ main [], kv.2.isNull = false) := by
  decide!

/-- C2, amended. `main` applied to the empty mapping returns a mapping with
exactly ten top-level keys, the ten assigned keys in assignment order, each
bound to a non-null value. -/
theorem main_empty_ten_keys :
    ownKeys (main []) = assignedKeys ∧ (ownKeys (main [])).length = 10 ∧
    ∀ kv ∈ main [], kv.2.isNull = false := by
  decide!

/-- C3. For every input mapping the `rules` sequence of the result is
non-empty, its last element starts with `MATCH,` and no earlier element does. -/
theorem rules_match_only_last (config : Obj) :
    ∃ rs, rulesOf (main config) = some rs ∧ rs ≠ [] ∧
      (∃ l ∈ rs.getLast?, startsWith l "MATCH," = true) ∧
      ∀ r ∈ rs.dropLast, startsWith r "MATCH," = false :=
  ⟨rules, rulesOf_main config, by decide!⟩

/-- C4. Every rule of the result has a target (the text after its last comma)
that is `DIRECT`, `REJECT` or the name of an entry of the `proxy-groups`
sequence of the same result. -/
theorem rule_targets_resolve (config : Obj) :
    ∃ rs gs, rulesOf (main config) = some rs ∧ proxyGroupsOf (main config) = some gs ∧
      ∀ r ∈ rs, ∃ t ∈ ruleTarget? r,
        t = "DIRECT" ∨ t = "REJECT" ∨ ∃ g ∈ gs, groupName? g = some t :=
  ⟨rules, proxyGroups, rulesOf_main config, proxyGroupsOf_main config, by decide!⟩

/-- C5. Every rule of the result that starts with `RULE-SET,` has the form
`RULE-SET,<key>,<target>`, and the key of every rule of that form is a key of
the `rule-providers` mapping of the same result. -/
theorem rule_set_keys_resolve (config : Obj) :
    ∃ rs ps, rulesOf (main config) = some rs ∧ ruleProvidersOf (main config) = some ps ∧
      (∀ r ∈ rs, ∀ k ∈ ruleSetKey? r, k ∈ ownKeys ps) ∧
      (∀ r ∈ rs, startsWith r "RULE-SET," = true → (ruleSetKey? r).isSome = true) :=
  ⟨rules, ruleProviders, rulesOf_main config, ruleProvidersOf_main config, by decide!⟩

/-- C6, as stated, fails: the provider under the key `AI平台-国外` has the path
`./ruleset/AI.list`, which is not `./ruleset/` + key + `.list`. -/
theorem provider_path_not_from_key :
    ∃ ps, ruleProvidersOf (main []) = some ps ∧
      ∃ p ∈ getProp ps "AI平台-国外",
        providerPath? p = some "./ruleset/AI.list" ∧
        providerPath? p ≠ some ("./ruleset/" ++ "AI平台-国外" ++ ".list") :=
  ⟨ruleProviders, ruleProvidersOf_main [], by decide!⟩

/-- C6, amended. For every key `k` bound to a provider `p` in the
`rule-providers` mapping of the result, `p.path` is `./ruleset/` + `k` + `.list`
when `k` is not `AI平台-国外` and `./ruleset/AI.list` when it is; in both cases
`p.path` is `./ruleset/` followed by the last segment of `p.url`. -/
theorem provider_path_from_key_or_url (config : Obj) :
    ∃ ps, ruleProvidersOf (main config) = some ps ∧
      ∀ k p, getProp ps k = some p →
        providerPath? p
          = some ("./ruleset/" ++ (if k = "AI平台-国外" then "AI" else k) ++ ".list") ∧
        ∃ u ∈ providerUrl? p, providerPath? p = some ("./ruleset/" ++ lastSegment u) := by
  refine ⟨ruleProviders, ruleProvidersOf_main config, ?_⟩
  intro k p h
  have hall : ∀ kp ∈ ruleProviders,
      providerPath? kp.2
        = some ("./ruleset/" ++ (if kp.1 = "AI平台-国外" then "AI" else kp.1) ++ ".list") ∧
      ∃ u ∈ providerUrl? kp.2, providerPath? kp.2 = some ("./ruleset/" ++ lastSegment u) := by
    decide!
  exact hall (k, p) (mem_of_getProp _ _ _ h)

/-- C7. The alternatives of the `exclude-filter` of `其他节点` are exactly the
alternatives of the `filter` strings of the six regional groups: a string is
an alternative of the former if and only if it is an alternative of one of
the latter. -/
theorem other_exclude_filter_is_union (config : Obj) :
    ∃ gs, proxyGroupsOf (main config) = some gs ∧
      ∃ ex ∈ excludeFilterOf? gs "其他节点", ∃ fs ∈ filtersOf? gs regionalGroupNames,
        fs.length = 6 ∧ ∀ a, a ∈ alternatives ex ↔ ∃ f ∈ fs, a ∈ alternatives f := by
  refine ⟨proxyGroups, proxyGroupsOf_main config, ?_⟩
  have h : ∃ ex ∈ excludeFilterOf? proxyGroups "其他节点",
      ∃ fs ∈ filtersOf? proxyGroups regionalGroupNames,
        fs.length = 6 ∧ (∀ a ∈ alternatives ex, ∃ f ∈ fs, a ∈ alternatives f) ∧
          ∀ f ∈ fs, ∀ a ∈ alternatives f, a ∈ alternatives ex := by
    decide!
  obtain ⟨ex, hex, fs, hfs, hlen, h1, h2⟩ := h
  exact ⟨ex, hex, fs, hfs, hlen, fun a => ⟨h1 a, fun ⟨f, hf, ha⟩ => h2 f hf a ha⟩⟩

/-- C8. In the `proxy-groups` sequence of the result, every name in the
`proxies` list of a group is `DIRECT`, `REJECT` or the name of a group at
another position of the sequence; eighteen groups have a `proxies` list. -/
theorem group_references_resolve (config : Obj) :
    ∃ gs, proxyGroupsOf (main config) = some gs ∧
      (gs.filter (fun g => (groupProxies? g).isSome)).length = 18 ∧
      ∀ ig ∈ gs.enum, ∀ ps ∈ groupProxies? ig.2, ∀ n ∈ ps,
        n = "DIRECT" ∨ n = "REJECT" ∨
          ∃ jh ∈ gs.enum, jh.1 ≠ ig.1 ∧ groupName? jh.2 = some n :=
  ⟨proxyGroups, proxyGroupsOf_main config, by decide!⟩

/-- C9. The names of the entries of the `proxy-groups` sequence of the result
are pairwise distinct. -/
theorem group_names_distinct (config : Obj) :
    ∃ gs, proxyGroupsOf (main config) = some gs ∧
      ∃ ns ∈ groupNames? gs, ns.length = gs.length ∧ ns.Nodup :=
  ⟨proxyGroups, proxyGroupsOf_main config, by decide!⟩

/-- C10, as stated, fails: not every service-specific group has `DIRECT` as the
last element of its `proxies` list. -/
theorem service_group_last_not_direct :
    ∃ gs, proxyGroupsOf (main []) = some gs ∧
      ¬ ∀ n ∈ serviceGroupNames,
          ∃ ps ∈ proxiesOfGroup? gs n, ps ≠ [] ∧ ps.getLast? = some "DIRECT" :=
  ⟨proxyGroups, proxyGroupsOf_main [], by decide!⟩

/-- C10, amended. The service-specific groups are the sixteen entries that
follow the first three; each has a non-empty `proxies` list that contains
`DIRECT`, and `DIRECT` is its last element for `AI节点`, `电报消息`, `油管视频`,
`奈飞视频`, `国外媒体`, `广告拦截` and `应用净化`. -/
theorem service_groups_offer_direct (config : Obj) :
    ∃ gs, proxyGroupsOf (main config) = some gs ∧
      groupNames? ((gs.drop 3).take 16) = some serviceGroupNames ∧
      (∀ n ∈ serviceGroupNames, ∃ ps ∈ proxiesOfGroup? gs n, ps ≠ [] ∧ "DIRECT" ∈ ps) ∧
      ∀ n ∈ ["AI节点", "电报消息", "油管视频", "奈飞视频", "国外媒体", "广告拦截", "应用净化"],
        ∃ ps ∈ proxiesOfGroup? gs n, ps.getLast? = some "DIRECT" :=
  ⟨proxyGroups, proxyGroupsOf_main config, by decide!⟩

/-- C11. The `proxies` list of `GLOBAL` is the list of the names of the other
entries of the `proxy-groups` sequence, in sequence order: every such name
occurs exactly once and nothing else occurs. -/
theorem global_lists_other_groups (config : Obj) :
    ∃ gs, proxyGroupsOf (main config) = some gs ∧
      ∃ ns ∈ groupNames? gs, ∃ ps ∈ proxiesOfGroup? gs "GLOBAL",
        ns.Nodup ∧ "GLOBAL" ∈ ns ∧
        ps = ns.filter (fun n => n ≠ "GLOBAL") ∧ ps.Nodup ∧ ps.length + 1 = gs.length :=
  ⟨proxyGroups, proxyGroupsOf_main config, by decide!⟩

/-- C12. The `geox-url` mapping of the result has exactly the keys `geoip`,
`geosite` and `mmdb`, the keys of `rawGeoxURLs`, and binds each to the mirror
prefix `https://fastgh.lainbo.com/` followed by the address that `rawGeoxURLs`
binds to the same key. -/
theorem geox_url_prefixed (config : Obj) :
    ∃ g, geoxUrlOf (main config) = some g ∧
      ownKeys g = ["geoip", "geosite", "mmdb"] ∧
      ownKeys g = rawGeoxURLs.map Prod.fst ∧
      ∀ ku ∈ rawGeoxURLs,
        strField? (.obj g) ku.1 = some ("https://fastgh.lainbo.com/" ++ ku.2) :=
  ⟨geoxUrl, geoxUrlOf_main config, by decide!⟩

/-- C13. Two distinct keys of the `rule-providers` mapping of the result are
bound to providers with distinct paths. -/
theorem provider_paths_distinct (config : Obj) :
    ∃ ps, ruleProvidersOf (main config) = some ps ∧
      ∀ k₁ k₂ p₁ p₂, getProp ps k₁ = some p₁ → getProp ps k₂ = some p₂ → k₁ ≠ k₂ →
        ∃ a ∈ providerPath? p₁, ∃ b ∈ providerPath? p₂, a ≠ b := by
  refine ⟨ruleProviders, ruleProvidersOf_main config, ?_⟩
  intro k₁ k₂ p₁ p₂ h₁ h₂ hne
  have hall : ∀ x ∈ ruleProviders, ∀ y ∈ ruleProviders, x.1 ≠ y.1 →
      ∃ a ∈ providerPath? x.2, ∃ b ∈ providerPath? y.2, a ≠ b := by
    decide!
  exact hall (k₁, p₁) (mem_of_getProp _ _ _ h₁) (k₂, p₂) (mem_of_getProp _ _ _ h₂) hne

/-- C14. Inputs that bind the same keys to the same values, in whatever key
order, have results that bind the same keys to the same values; equal inputs
have equal results. -/
theorem main_respects_equality (c₁ c₂ : Obj) (h : ∀ k, getProp c₁ k = getProp c₂ k) :
    (∀ k, getProp (main c₁) k = getProp (main c₂) k) ∧ (c₁ = c₂ → main c₁ = main c₂) := by
  refine ⟨fun k => ?_, fun heq => by rw [heq]⟩
  by_cases hk : k ∈ assignedKeys
  · rw [getProp_main_of_assigned c₁ k hk, getProp_main_of_assigned c₂ k hk]
  · rw [getProp_main_of_not_assigned c₁ k hk, getProp_main_of_not_assigned c₂ k hk, h k]

/-- Witness of C14 on two inputs that bind `mode` and `port` in different key order. -/
theorem main_respects_equality_witness :
    (∀ k, getProp [("mode", .str "rule"), ("port", .num 7890)] k
        = getProp [("port", .num 7890), ("mode", .str "rule")] k) ∧
    getProp (main [("mode", .str "rule"), ("port", .num 7890)]) "port"
      = getProp (main [("port", .num 7890), ("mode", .str "rule")]) "port" := by
  have h : ∀ k, getProp [("mode", .str "rule"), ("port", .num 7890)] k
      = getProp [("port", .num 7890), ("mode", .str "rule")] k := by
    intro k
    by_cases hm : "mode" = k
    · subst hm
      rfl
    · by_cases hp : "port" = k
      · subst hp
        rfl
      · simp only [getProp, hm, hp, if_false]
  exact ⟨h, (main_respects_equality _ _ h).1 "port"⟩

/-- C15. Every entry of the `proxy-groups` sequence of the result has type
`select` or `url-test`; an entry with a `proxies` list has type `select`; an
entry has an `interval` or a `tolerance` field exactly when its type is `url-test`. -/
theorem group_types (config : Obj) :
    ∃ gs, proxyGroupsOf (main config) = some gs ∧
      ∀ g ∈ gs,
        (typeOf? g = some "select" ∨ typeOf? g = some "url-test") ∧
        (hasField g "proxies" = true → typeOf? g = some "select") ∧
        ((hasField g "interval" = true ∨ hasField g "tolerance" = true)
          ↔ typeOf? g = some "url-test") :=
  ⟨proxyGroups, proxyGroupsOf_main config, by decide!⟩

/-- C16. Each of the seven regional groups has `include-all` true, type
`url-test`, `interval` 300, `tolerance` 50 and no `proxies` list; `其他节点` has
an `exclude-filter` and no `filter`, the other six have a `filter` and no
`exclude-filter`. -/
theorem regional_groups_template (config : Obj) :
    ∃ gs, proxyGroupsOf (main config) = some gs ∧
      (∀ n ∈ regionalGroupNames ++ ["其他节点"], ∃ g ∈ findGroup? gs n,
        boolField? g "include-all" = some true ∧ typeOf? g = some "url-test" ∧
        numField? g "interval" = some 300 ∧ numField? g "tolerance" = some 50 ∧
        hasField g "proxies" = false) ∧
      (∀ n ∈ regionalGroupNames, ∃ g ∈ findGroup? gs n,
        (strField? g "filter").isSome = true ∧ hasField g "exclude-filter" = false) ∧
      ∃ g ∈ findGroup? gs "其他节点",
        (strField? g "exclude-filter").isSome = true ∧ hasField g "filter" = false :=
  ⟨proxyGroups, proxyGroupsOf_main config, by decide!⟩

/-- C17. Every provider of the `rule-providers` mapping of the result has the
six fields `url`, `path`, `behavior`, `interval`, `format`, `type` and no
other, with `behavior` one of `classical`, `domain`, `ipcidr`, `format` equal
to `text`, `type` equal to `http` and `interval` equal to 86400. -/
theorem provider_fields (config : Obj) :
    ∃ ps, ruleProvidersOf (main config) = some ps ∧
      ∀ k p, getProp ps k = some p →
        (∀ f ∈ ["url", "path", "behavior", "interval", "format", "type"],
          hasField p f = true) ∧
        (fieldNames p).length = 6 ∧
        (providerUrl? p).isSome = true ∧ (providerPath? p).isSome = true ∧
        (strField? p "behavior" = some "classical" ∨ strField? p "behavior" = some "domain" ∨
          strField? p "behavior" = some "ipcidr") ∧
        strField? p "format" = some "text" ∧ typeOf? p = some "http" ∧
        numField? p "interval" = some 86400 := by
  refine ⟨ruleProviders, ruleProvidersOf_main config, ?_⟩
  intro k p h
  have hall : ∀ kp ∈ ruleProviders,
      (∀ f ∈ ["url", "path", "behavior", "interval", "format", "type"],
        hasField kp.2 f = true) ∧
      (fieldNames kp.2).length = 6 ∧
      (providerUrl? kp.2).isSome = true ∧ (providerPath? kp.2).isSome = true ∧
      (strField? kp.2 "behavior" = some "classical" ∨
        strField? kp.2 "behavior" = some "domain" ∨
        strField? kp.2 "behavior" = some "ipcidr") ∧
      strField? kp.2 "format" = some "text" ∧ typeOf? kp.2 = some "http" ∧
      numField? kp.2 "interval" = some 86400 := by
    decide!
  exact hall (k, p) (mem_of_getProp _ _ _ h)

/-- C18. The `rules` sequence of the result is a non-empty run of rules that
start with `RULE-SET,` and have exactly three comma-separated fields, the first
of them `RULE-SET,MyCustomDirect,全球直连`, followed by `GEOIP,CN,全球直连` and
then `MATCH,漏网之鱼`; exactly one rule starts with `GEOIP,` and exactly one
with `MATCH,`. -/
theorem rules_shape (config : Obj) :
    ∃ rs, rulesOf (main config) = some rs ∧
      ∃ run, rs = run ++ ["GEOIP,CN,全球直连", "MATCH,漏网之鱼"] ∧
        run.head? = some "RULE-SET,MyCustomDirect,全球直连" ∧
        (∀ r ∈ run, startsWith r "RULE-SET," = true ∧ (split r ',').length = 3) ∧
        (rs.filter (fun r => startsWith r "GEOIP,")).length = 1 ∧
        (rs.filter (fun r => startsWith r "MATCH,")).length = 1 :=
  ⟨rules, rulesOf_main config, rules.take 27, by decide!⟩

/-- C19. `main` is idempotent: applying it to its own result changes nothing. -/
theorem main_idempotent (config : Obj) : main (main config) = main config :=
  main_eq_self (main config) (getProp_main_dns config) (getProp_main_unifiedDelay config)
    (getProp_main_tcpConcurrent config) (getProp_main_profile config)
    (getProp_main_sniffer config) (getProp_main_geodataMode config)
    (getProp_main_geoxUrl config) (getProp_main_proxyGroups config)
    (getProp_main_ruleProviders config) (getProp_main_rules config)

/-- C20. The value that the result binds to an assigned key does not depend on
the input: for any two inputs it is the same, it is the value bound in the
result for the empty mapping, and the key is bound. -/
theorem assigned_values_constant (c₁ c₂ : Obj) (k : String) (hk : k ∈ assignedKeys) :
    getProp (main c₁) k = getProp (main c₂) k ∧
    getProp (main c₁) k = getProp (main []) k ∧
    (getProp (main c₁) k).isSome = true :=
  ⟨(getProp_main_of_assigned c₁ k hk).trans (getProp_main_of_assigned c₂ k hk).symm,
    getProp_main_of_assigned c₁ k hk, isSome_getProp_main_of_assigned c₁ k hk⟩

/-- Witness of C20 on an input that binds `rules` to a one-element array and an
input that binds `rules` to `null`: both results bind `rules` to the same value. -/
theorem assigned_values_constant_witness :
    "rules" ∈ assignedKeys ∧
    getProp (main [("rules", .arr [.str "MATCH,DIRECT"])]) "rules"
      = getProp (main [("rules", .null)]) "rules" :=
  ⟨by decide,
    (assigned_values_constant [("rules", .arr [.str "MATCH,DIRECT"])] [("rules", .null)]
      "rules" (by decide)).1⟩

/-- C21. The references relation on the `proxy-groups` sequence of the result
(the group at one position references the group at another when the name of
the latter occurs in the `proxies` list of the former) is not empty and has no
cycle: no position reaches itself through one or more references. -/
theorem references_acyclic (config : Obj) :
    ∃ gs, proxyGroupsOf (main config) = some gs ∧
      references gs 26 0 = true ∧
      ∀ i, ¬ Relation.TransGen (fun a b => references gs a b = true) i i :=
  ⟨proxyGroups, proxyGroupsOf_main config, by decide!,
    not_transGen_self_of_rank _ (depthAt proxyGroups) depthAt_lt_of_references⟩

/-- C22. In the result no key is the key of more than one `RULE-SET` rule; the
keys of `rule-providers` that are the key of no `RULE-SET` rule are exactly
`NetEaseMusic` and `Bahamut`, and every other key of `rule-providers` is the
key of exactly one rule. -/
theorem rule_set_references_unique (config : Obj) :
    ∃ rs ps, rulesOf (main config) = some rs ∧ ruleProvidersOf (main config) = some ps ∧
      (rs.filterMap ruleSetKey?).Nodup ∧
      (∀ k ∈ ownKeys ps, ruleSetCount rs k ≤ 1) ∧
      (∀ k ∈ ownKeys ps, ruleSetCount rs k = 0 ↔ (k = "NetEaseMusic" ∨ k = "Bahamut")) ∧
      "NetEaseMusic" ∈ ownKeys ps ∧ "Bahamut" ∈ ownKeys ps ∧
      ∀ k ∈ ownKeys ps, k ≠ "NetEaseMusic" → k ≠ "Bahamut" → ruleSetCount rs k = 1 :=
  ⟨rules, ruleProviders, rulesOf_main config, ruleProvidersOf_main config, by decide!⟩

end ClashRule
